import Mathlib

/-!
Verification of the boot-sector build/test pipeline
(`src/common/mbr_writer.py`, `src/common/compiler.py`,
`src/common/qemu_runner.py`) against its specification.

The Python modules are shallowly embedded: interactive input, subprocess
results and I/O outcomes become explicit parameters (environment records),
byte strings become `List Nat`, the filesystem visible to the test harness
becomes a `List String` of existing paths.
-/

set_option maxRecDepth 8192

namespace BootSector

/-! ### Python string primitives

Models of the Python `str` methods used by the sources, over ASCII data
(the only data the pipeline handles): `str.strip()`, `str.lower()`,
`str.startswith`, and the substring test `needle in haystack`. -/

/-- The whitespace characters stripped by Python `str.strip()` (ASCII part). -/
def isPyWhitespace (c : Char) : Bool :=
  c = ' ' || c = '\t' || c = '\n' || c = '\r' || c = '\x0b' || c = '\x0c'

/-- Python `str.strip()` on a list of characters. -/
def pyStripList (l : List Char) : List Char :=
  ((l.dropWhile isPyWhitespace).reverse.dropWhile isPyWhitespace).reverse

/-- Python `str.strip()`. -/
def pyStrip (s : String) : String :=
  ⟨pyStripList s.data⟩

/-- Python `str.lower()` on one character (ASCII case mapping). -/
def pyLowerChar (c : Char) : Char :=
  if c = 'A' then 'a' else if c = 'B' then 'b' else if c = 'C' then 'c'
  else if c = 'D' then 'd' else if c = 'E' then 'e' else if c = 'F' then 'f'
  else if c = 'G' then 'g' else if c = 'H' then 'h' else if c = 'I' then 'i'
  else if c = 'J' then 'j' else if c = 'K' then 'k' else if c = 'L' then 'l'
  else if c = 'M' then 'm' else if c = 'N' then 'n' else if c = 'O' then 'o'
  else if c = 'P' then 'p' else if c = 'Q' then 'q' else if c = 'R' then 'r'
  else if c = 'S' then 's' else if c = 'T' then 't' else if c = 'U' then 'u'
  else if c = 'V' then 'v' else if c = 'W' then 'w' else if c = 'X' then 'x'
  else if c = 'Y' then 'y' else if c = 'Z' then 'z' else c

/-- Python `str.lower()` (ASCII case mapping). -/
def pyLower (s : String) : String :=
  ⟨s.data.map pyLowerChar⟩

/-- `listStarts n h` holds when `n` is an initial segment of `h`
(Python `str.startswith`). -/
def listStarts : List Char → List Char → Bool
  | [], _ => true
  | _ :: _, [] => false
  | a :: as, b :: bs => a == b && listStarts as bs

/-- Python membership test `needle in haystack` on character lists. -/
def containsSub (n : List Char) : List Char → Bool
  | [] => listStarts n []
  | c :: t => listStarts n (c :: t) || containsSub n t

/-- Python `needle in haystack` on strings. -/
def strContains (needle haystack : String) : Bool :=
  containsSub needle.data haystack.data

/-! ### `mbr_writer.py` (`MBRWriter`) -/

/-- The substring patterns of `MBRWriter._is_physical_drive`
(`mbr_writer.py` lines 75-82). -/
def dangerousPatterns : List String :=
  ["PhysicalDrive", "/dev/sd", "/dev/hd", "/dev/nvme", "disk", "rdisk"]

/-- `MBRWriter._is_physical_drive`: `any(pattern in target for pattern in
dangerous_patterns)`. -/
def is_physical_drive (target : String) : Bool :=
  dangerousPatterns.any (fun p => strContains p target)

/-- The boolean returned by `MBRWriter._display_safety_warning`
(`mbr_writer.py` lines 60-71).  The operator's line (what Python `input()`
returns) is the explicit argument `confirmation`; `target` only selects
the warning text and does not affect the result. -/
def display_safety_warning (safety_level target confirmation : String) : Bool :=
  if safety_level = "high" then
    pyStrip confirmation == "I UNDERSTAND THE RISKS"
  else if safety_level = "medium" then
    pyLower (pyStrip confirmation) == "yes"
  else
    listStarts "y".data (pyLower (pyStrip confirmation)).data

/-- `MBRWriter.write_mbr_to_file` (`mbr_writer.py` lines 99-121).
Returns `(success, prompted)` where `prompted` records whether
`_display_safety_warning` was invoked (i.e. a line of operator input was
read).  `ioOk` models whether the `mkdir`/`open`/`write` block raised. -/
def write_mbr_to_file (safety_level : String) (mbr_data : List Nat)
    (target : String) (force : Bool) (operatorInput : String)
    (ioOk : Bool) : Bool × Bool :=
  if mbr_data.length ≠ 512 then (false, false)
  else if !force && safety_level ≠ "none" then
    if display_safety_warning safety_level target operatorInput then
      (ioOk, true)
    else
      (false, true)
  else
    (ioOk, false)

/-! ### `compiler.py` (`MBRCompiler`) -/

/-- Environment of one `MBRCompiler.compile_asm_to_binary` call: whether
NASM was located, whether the source file exists, whether the
`subprocess.run` block raised, NASM's exit code and stderr, and what the
output file looks like afterwards. -/
structure CompileEnv where
  nasmFound : Bool
  asmExists : Bool
  runRaised : Bool
  excText : String
  returncode : Int
  stderr : String
  outputExists : Bool
  outputSize : Nat
  deriving DecidableEq, Repr

/-- `MBRCompiler.compile_asm_to_binary` (`compiler.py` lines 58-94),
returning the `(success, message)` pair of the Python function. -/
def compile_asm_to_binary (asmName : String) (env : CompileEnv) :
    Bool × String :=
  if !env.nasmFound then
    (false, "NASM assembler not found. Please install NASM.")
  else if !env.asmExists then
    (false, "Assembly file not found: " ++ asmName)
  else if env.runRaised then
    (false, "Compilation error: " ++ env.excText)
  else if env.returncode = 0 then
    if env.outputExists then
      if env.outputSize = 512 then
        (true, "Successfully compiled " ++ asmName ++ " to binary")
      else
        (false, "Output size is " ++ toString env.outputSize ++
          " bytes, expected 512 bytes")
    else
      (false, "Compilation succeeded but output file not found")
  else
    (false, "NASM failed: " ++ env.stderr)

/-! ### The installer emitted by `MBRCompiler.create_cpp_executable`

`_generate_cpp_source` (`compiler.py` lines 185-274) emits a fixed C++
program around the 512 embedded bytes; the records below embed that
program's run-time semantics.  The operating system's response to the raw
write is the explicit `InstallEnv`. -/

/-- What the OS did when the emitted installer opened and wrote the
target: whether the open succeeded and how many bytes the write call
reported written. -/
structure InstallEnv where
  openOk : Bool
  writtenCount : Int
  deriving DecidableEq, Repr

/-- `writeMBR` of the emitted C++ program: open the target for raw
writing, write the 512 embedded bytes, succeed iff the open succeeded and
the reported count equals 512. -/
def cppWriteMBR (env : InstallEnv) : Bool :=
  env.openOk && env.writtenCount == 512

/-- Observable outcome of one run of the emitted installer:
its exit code, whether a verified 512-byte write completed, whether the
run ended at the cancellation branch, and whether the variant name and
target path were printed. -/
structure InstallerOutcome where
  exitCode : Nat
  wrote : Bool
  cancelled : Bool
  printedInfo : Bool
  deriving DecidableEq, Repr

/-- `main` of the emitted C++ program (`compiler.py` lines 242-273):
`argc` is the C `argc`, `input` the line read from standard input at the
confirmation prompt. -/
def installerMain (argc : Nat) (input : String) (env : InstallEnv) :
    InstallerOutcome :=
  if argc ≠ 2 then
    ⟨1, false, false, false⟩
  else if input ≠ "YES" then
    ⟨0, false, true, true⟩
  else if cppWriteMBR env then
    ⟨0, true, false, true⟩
  else
    ⟨1, false, false, true⟩

/-! ### `qemu_runner.py` (`QEMURunner`)

The filesystem seen by the harness is the `List String` of existing
paths.  `tempfile.TemporaryDirectory()` is the scoped combinator
`withTempDir`: its `__exit__` removes the directory and everything under
it on every way out of the `with` block. -/

/-- How the launched QEMU process ended. -/
inductive RunOutcome where
  /-- `subprocess.run` returned normally. -/
  | completed
  /-- `subprocess.run` raised `TimeoutExpired`. -/
  | timedOut
  /-- launching raised `FileNotFoundError`. -/
  | launchMissing
  /-- launching raised some other exception with this text. -/
  | failed (msg : String)
  deriving DecidableEq, Repr

/-- Environment of one `QEMURunner.test_mbr_in_qemu` call: which tools
were located, whether `qemu-img create` succeeded (and its stderr), the
bytes the fresh raw image holds after creation, whether writing sector 0
raised, and how the emulator run ended. -/
structure QemuEnv where
  qemuFound : Bool
  qemuCmd : String
  qemuImgFound : Bool
  createOk : Bool
  createStderr : String
  imageContent : List Nat
  writeIoOk : Bool
  runOutcome : RunOutcome
  deriving DecidableEq, Repr

/-- `QEMURunner.is_available` (`qemu_runner.py` lines 73-75). -/
def qemu_is_available (env : QemuEnv) : Bool :=
  env.qemuFound && env.qemuImgFound

/-- `QEMURunner.create_disk_image` (`qemu_runner.py` lines 100-135). -/
def create_disk_image (env : QemuEnv) (imagePath : String)
    (size_mb : Nat) : Bool × String :=
  if !env.qemuImgFound then
    (false, "qemu-img not found. Please install QEMU.")
  else if env.createOk then
    (true, "Created " ++ toString size_mb ++ "MB disk image: " ++ imagePath)
  else
    (false, "Failed to create disk image: " ++ env.createStderr)

/-- `QEMURunner.write_mbr_to_image` (`qemu_runner.py` lines 216-242).
`content` is the byte content of the disk image before the call; the
result pairs the Python `(success, message)` with the content afterwards.
Opening with `r+b` and writing 512 bytes replaces bytes 0-511 and leaves
the rest of the file untouched.  (On the `ioRaised` branch the partial
effect of an interrupted write is not observed by any caller and the
prior content is returned.) -/
def write_mbr_to_image (mbr_data : List Nat) (imagePath : String)
    (imageExists : Bool) (ioRaised : Bool) (content : List Nat) :
    (Bool × String) × List Nat :=
  if mbr_data.length ≠ 512 then
    ((false, "MBR data must be exactly 512 bytes (got " ++
      toString mbr_data.length ++ ")"), content)
  else if !imageExists then
    ((false, "Disk image not found: " ++ imagePath), content)
  else if ioRaised then
    ((false, "Error writing MBR to image: " ++ imagePath), content)
  else
    ((true, "MBR written to " ++ imagePath), mbr_data ++ content.drop 512)

/-- `tempfile.TemporaryDirectory()` as used in `test_mbr_in_qemu`
(`qemu_runner.py` line 157): create the directory, run the body of the
`with` block, then — on every exit path, normal or exceptional — remove
the directory and everything under it. -/
def withTempDir {α : Type} (tempDir : String) (fs : List String)
    (body : List String → α × List String) : α × List String :=
  let r := body (fs ++ [tempDir])
  (r.1, r.2.filter (fun p => !listStarts tempDir.data p.data))

/-- `QEMURunner.test_mbr_in_qemu` (`qemu_runner.py` lines 137-214).
`fs` is the filesystem before the call and `tempDir` the name
`tempfile.TemporaryDirectory` picks; the result pairs the Python
`(success, message)` with the filesystem after the call. -/
def test_mbr_in_qemu (env : QemuEnv) (mbr_data : List Nat)
    (variant_name : String) (timeout_seconds : Nat) (fs : List String)
    (tempDir : String) : (Bool × String) × List String :=
  if !qemu_is_available env then
    ((false, "QEMU not available"), fs)
  else
    withTempDir tempDir fs (fun fs1 =>
      let imagePath := tempDir ++ "/" ++ variant_name ++ "_test.img"
      let created := create_disk_image env imagePath 10
      if !created.1 then
        ((false, "Failed to create disk image: " ++ created.2), fs1)
      else
        let fs2 := fs1 ++ [imagePath]
        let written := write_mbr_to_image mbr_data imagePath true
          (!env.writeIoOk) env.imageContent
        if !written.1.1 then
          ((false, "Failed to write MBR: " ++ written.1.2), fs2)
        else
          if timeout_seconds > 0 then
            match env.runOutcome with
            | RunOutcome.completed =>
              ((true, "QEMU test completed successfully"), fs2)
            | RunOutcome.timedOut =>
              ((true, "QEMU test completed (timeout after " ++
                toString timeout_seconds ++ "s"), fs2)
            | RunOutcome.launchMissing =>
              ((false, "QEMU executable not found: " ++ env.qemuCmd), fs2)
            | RunOutcome.failed m =>
              ((false, "Error running QEMU: " ++ m), fs2)
          else
            match env.runOutcome with
            | RunOutcome.launchMissing =>
              ((false, "QEMU executable not found: " ++ env.qemuCmd), fs2)
            | RunOutcome.failed m =>
              ((false, "Error running QEMU: " ++ m), fs2)
            | _ =>
              -- `TimeoutExpired` cannot arise when no timeout is passed,
              -- so only normal completion remains.
              ((true, "QEMU test completed"), fs2))

/-- Observable outcome of `QEMURunner.run_variant_test`
(`qemu_runner.py` lines 244-291): whether the image was rejected for its
size before any testing, whether the missing-signature warning was
printed, whether the QEMU test was reached, and the returned flag. -/
structure VariantTestResult where
  sizeRejected : Bool
  sigWarned : Bool
  ranQemu : Bool
  success : Bool
  deriving DecidableEq, Repr

/-- `QEMURunner.run_variant_test` with its default options
(`snapshot`, `isolated`, 128 MB, 30 s). -/
def run_variant_test (env : QemuEnv) (variant_name : String)
    (mbr_data : List Nat) (fs : List String) (tempDir : String) :
    VariantTestResult :=
  if mbr_data.length ≠ 512 then
    ⟨true, false, false, false⟩
  else
    let warned := !(mbr_data.drop 510 == [0x55, 0xAA])
    let r := test_mbr_in_qemu env mbr_data variant_name 30 fs tempDir
    ⟨false, warned, true, r.1.1⟩

/-! ### Helper lemmas on the string primitives -/

theorem listStarts_of_append (n r h : List Char)
    (hs : listStarts (n ++ r) h = true) : listStarts n h = true := by
  induction n generalizing h with
  | nil => rfl
  | cons a as ih =>
    cases h with
    | nil => simp [listStarts] at hs
    | cons b bs =>
      simp only [List.cons_append, listStarts, Bool.and_eq_true] at hs ⊢
      exact ⟨hs.1, ih bs hs.2⟩

theorem containsSub_of_append (n r h : List Char)
    (hc : containsSub (n ++ r) h = true) : containsSub n h = true := by
  induction h with
  | nil =>
    simp only [containsSub] at hc ⊢
    cases n with
    | nil => rfl
    | cons a as => simp [listStarts] at hc
  | cons c t ih =>
    simp only [containsSub, Bool.or_eq_true] at hc ⊢
    rcases hc with hc | hc
    · exact Or.inl (listStarts_of_append n r _ hc)
    · exact Or.inr (ih hc)

/-- The uppercase ASCII letters, the characters `pyLowerChar` moves. -/
def upperChars : List Char :=
  ['A','B','C','D','E','F','G','H','I','J','K','L','M',
   'N','O','P','Q','R','S','T','U','V','W','X','Y','Z']

theorem pyLowerChar_char_cases (c : Char) :
    c ∈ upperChars ∨ pyLowerChar c = c := by
  by_cases hm : c ∈ upperChars
  · exact Or.inl hm
  · refine Or.inr ?_
    simp only [upperChars, List.mem_cons, List.not_mem_nil, or_false,
      not_or] at hm
    obtain ⟨hA,hB,hC,hD,hE,hF,hG,hH,hI,hJ,hK,hL,hM,
      hN,hO,hP,hQ,hR,hS,hT,hU,hV,hW,hX,hY,hZ⟩ := hm
    unfold pyLowerChar
    rw [if_neg hA, if_neg hB, if_neg hC, if_neg hD, if_neg hE, if_neg hF,
        if_neg hG, if_neg hH, if_neg hI, if_neg hJ, if_neg hK, if_neg hL,
        if_neg hM, if_neg hN, if_neg hO, if_neg hP, if_neg hQ, if_neg hR,
        if_neg hS, if_neg hT, if_neg hU, if_neg hV, if_neg hW, if_neg hX,
        if_neg hY, if_neg hZ]

theorem pyLowerChar_eq_y (c : Char) :
    pyLowerChar c = 'y' ↔ c = 'y' ∨ c = 'Y' := by
  constructor
  · intro h
    rcases pyLowerChar_char_cases c with hm | hfix
    · fin_cases hm <;> revert h <;> decide
    · exact Or.inl (hfix.symm.trans h)
  · rintro (rfl | rfl) <;> decide

theorem pyLowerChar_eq_e (c : Char) :
    pyLowerChar c = 'e' ↔ c = 'e' ∨ c = 'E' := by
  constructor
  · intro h
    rcases pyLowerChar_char_cases c with hm | hfix
    · fin_cases hm <;> revert h <;> decide
    · exact Or.inl (hfix.symm.trans h)
  · rintro (rfl | rfl) <;> decide

theorem pyLowerChar_eq_s (c : Char) :
    pyLowerChar c = 's' ↔ c = 's' ∨ c = 'S' := by
  constructor
  · intro h
    rcases pyLowerChar_char_cases c with hm | hfix
    · fin_cases hm <;> revert h <;> decide
    · exact Or.inl (hfix.symm.trans h)
  · rintro (rfl | rfl) <;> decide

theorem is_physical_drive_of_pattern (p : String)
    (hp : p ∈ dangerousPatterns) (s : String)
    (h : strContains p s = true) : is_physical_drive s = true := by
  simp only [is_physical_drive, List.any_eq_true]
  exact ⟨p, hp, h⟩

/-! ### Claim theorems -/

/-- C5: every path containing `/dev/sda1`, `/dev/nvme0n1`, a drive-letter
physical-disk device name such as `PhysicalDrive0`, or a macOS raw-disk
fragment `rdisk` is classified as a physical-drive target, and the
ordinary file path `./out/test.img` is not. -/
theorem physical_drive_pattern_classification (s : String) :
    (strContains "/dev/sda1" s = true → is_physical_drive s = true) ∧
    (strContains "/dev/nvme0n1" s = true → is_physical_drive s = true) ∧
    (strContains "PhysicalDrive0" s = true → is_physical_drive s = true) ∧
    (strContains "rdisk" s = true → is_physical_drive s = true) ∧
    is_physical_drive "./out/test.img" = false := by
  refine ⟨fun h => ?_, fun h => ?_, fun h => ?_, fun h => ?_, by decide⟩
  · refine is_physical_drive_of_pattern "/dev/sd" (by decide) s ?_
    refine containsSub_of_append "/dev/sd".data "a1".data s.data ?_
    have he : "/dev/sd".data ++ "a1".data = "/dev/sda1".data := by decide
    rw [he]
    exact h
  · refine is_physical_drive_of_pattern "/dev/nvme" (by decide) s ?_
    refine containsSub_of_append "/dev/nvme".data "0n1".data s.data ?_
    have he : "/dev/nvme".data ++ "0n1".data = "/dev/nvme0n1".data := by
      decide
    rw [he]
    exact h
  · refine is_physical_drive_of_pattern "PhysicalDrive" (by decide) s ?_
    refine containsSub_of_append "PhysicalDrive".data "0".data s.data ?_
    have he : "PhysicalDrive".data ++ "0".data = "PhysicalDrive0".data := by
      decide
    rw [he]
    exact h
  · exact is_physical_drive_of_pattern "rdisk" (by decide) s h

/-- Witness for C5 at the concrete target `/dev/sda1`. -/
theorem physical_drive_pattern_classification_witness :
    strContains "/dev/sda1" "/dev/sda1" = true ∧
    is_physical_drive "/dev/sda1" = true :=
  ⟨by decide,
    (physical_drive_pattern_classification "/dev/sda1").1 (by decide)⟩

/-- C10: the classifier matches by substring, so any target containing
`disk` or `rdisk` anywhere — e.g. the regular file path
`./out/disk_backup.img` — is classified as a physical-drive target. -/
theorem classifier_matches_disk_substring (s : String) :
    (strContains "disk" s = true → is_physical_drive s = true) ∧
    (strContains "rdisk" s = true → is_physical_drive s = true) ∧
    is_physical_drive "./out/disk_backup.img" = true := by
  refine ⟨fun h => ?_, fun h => ?_, by decide⟩
  · exact is_physical_drive_of_pattern "disk" (by decide) s h
  · exact is_physical_drive_of_pattern "rdisk" (by decide) s h

/-- Witness for C10 at the concrete target `./out/disk_backup.img`. -/
theorem classifier_matches_disk_substring_witness :
    strContains "disk" "./out/disk_backup.img" = true ∧
    is_physical_drive "./out/disk_backup.img" = true :=
  ⟨by decide,
    (classifier_matches_disk_substring "./out/disk_backup.img").1
      (by decide)⟩

/-- C3: for an existing assembly source, a zero assembler exit with a
512-byte output is success; a zero exit with any other produced length is
a size-mismatch failure; a non-zero exit is a failure carrying the
assembler's stderr; a missing assembler is a tool-missing failure. -/
theorem compile_asm_size_contract (asmName : String) (env : CompileEnv) :
    ((env.nasmFound = true ∧ env.asmExists = true ∧ env.runRaised = false ∧
        env.returncode = 0 ∧ env.outputExists = true ∧
        env.outputSize = 512) →
      compile_asm_to_binary asmName env =
        (true, "Successfully compiled " ++ asmName ++ " to binary")) ∧
    ((env.nasmFound = true ∧ env.asmExists = true ∧ env.runRaised = false ∧
        env.returncode = 0 ∧ env.outputExists = true ∧
        env.outputSize ≠ 512) →
      compile_asm_to_binary asmName env =
        (false, "Output size is " ++ toString env.outputSize ++
          " bytes, expected 512 bytes")) ∧
    ((env.nasmFound = true ∧ env.asmExists = true ∧ env.runRaised = false ∧
        env.returncode ≠ 0) →
      compile_asm_to_binary asmName env =
        (false, "NASM failed: " ++ env.stderr)) ∧
    (env.nasmFound = false →
      compile_asm_to_binary asmName env =
        (false, "NASM assembler not found. Please install NASM.")) := by
  refine ⟨fun h => ?_, fun h => ?_, fun h => ?_, fun h => ?_⟩
  · obtain ⟨h1, h2, h3, h4, h5, h6⟩ := h
    simp [compile_asm_to_binary, h1, h2, h3, h4, h5, h6]
  · obtain ⟨h1, h2, h3, h4, h5, h6⟩ := h
    simp [compile_asm_to_binary, h1, h2, h3, h4, h5, h6]
  · obtain ⟨h1, h2, h3, h4⟩ := h
    simp [compile_asm_to_binary, h1, h2, h3, h4]
  · simp [compile_asm_to_binary, h]

/-- Witness for C3: a 511-byte output after a zero exit is rejected as a
size mismatch. -/
theorem compile_asm_size_contract_witness :
    compile_asm_to_binary "boot.asm"
      ⟨true, true, false, "", 0, "", true, 511⟩ =
      (false, "Output size is 511 bytes, expected 512 bytes") :=
  (compile_asm_size_contract "boot.asm"
      ⟨true, true, false, "", 0, "", true, 511⟩).2.1
    ⟨rfl, rfl, rfl, rfl, rfl, by decide⟩

/-- C8: whenever `write_mbr_to_image` succeeds, the first 512 bytes of
the disk image afterwards are exactly the written image and every byte
past offset 511 is unchanged. -/
theorem write_mbr_roundtrip (mbr content : List Nat) (path : String)
    (e r : Bool)
    (hs : (write_mbr_to_image mbr path e r content).1.1 = true) :
    (write_mbr_to_image mbr path e r content).2.take 512 = mbr ∧
    (write_mbr_to_image mbr path e r content).2.drop 512 =
      content.drop 512 := by
  unfold write_mbr_to_image at hs ⊢
  split_ifs at hs ⊢ with h1 h2 h3
  all_goals simp at hs
  push_neg at h1
  refine ⟨List.take_left' h1, ?_⟩
  show List.drop 512 (mbr ++ List.drop 512 content) = List.drop 512 content
  rw [← h1, List.drop_left]

/-- Witness for C8 on a concrete 512-byte image and 515-byte disk file. -/
theorem write_mbr_roundtrip_witness :
    (write_mbr_to_image (List.replicate 512 7) "disk.img" true false
        (List.replicate 515 9)).2.take 512 = List.replicate 512 7 ∧
    (write_mbr_to_image (List.replicate 512 7) "disk.img" true false
        (List.replicate 515 9)).2.drop 512 =
      (List.replicate 515 9).drop 512 :=
  write_mbr_roundtrip (List.replicate 512 7) (List.replicate 515 9)
    "disk.img" true false (by decide)

/-- C9: with `force=True` the direct write path reads no operator input
(the result is the same whatever the operator would have typed, and no
prompt is shown), a 512-byte payload is written regardless of the safety
level, and the confirmation gate is consulted only when `force=False` and
the safety level is not `none`. -/
theorem force_bypasses_gate (safety_level : String) (mbr : List Nat)
    (target i1 i2 : String) (ioOk : Bool) :
    (write_mbr_to_file safety_level mbr target true i1 ioOk =
      write_mbr_to_file safety_level mbr target true i2 ioOk) ∧
    ((write_mbr_to_file safety_level mbr target true i1 ioOk).2 =
      false) ∧
    (mbr.length = 512 →
      (write_mbr_to_file safety_level mbr target true i1 ioOk).1 =
        ioOk) ∧
    (∀ f inp,
      (write_mbr_to_file safety_level mbr target f inp ioOk).2 = true →
        f = false ∧ safety_level ≠ "none") := by
  refine ⟨?_, ?_, fun h => ?_, fun f inp hp => ?_⟩
  · simp [write_mbr_to_file]
  · unfold write_mbr_to_file
    split_ifs with a b <;> first | rfl | simp at b
  · simp [write_mbr_to_file, h]
  · unfold write_mbr_to_file at hp
    split_ifs at hp with h1 h2 h3
    all_goals first
      | (simp only [Bool.and_eq_true, Bool.not_eq_true',
          decide_eq_true_eq] at h2
         exact h2)
      | simp at hp

/-- Witness for C9: concrete forced write at level `high`. -/
theorem force_bypasses_gate_witness :
    (write_mbr_to_file "high" (List.replicate 512 0) "/dev/sda" true
        "anything" true).1 = true :=
  (force_bypasses_gate "high" (List.replicate 512 0) "/dev/sda"
      "anything" "other" true).2.2.1 (by decide)

/-- C6: when the tools are present, the image was created and written,
and a positive timeout is set, expiry of the emulator's wall-clock
timeout is reported as success with a timeout-completion message. -/
theorem timeout_expiry_is_success (env : QemuEnv) (mbr : List Nat)
    (variant : String) (tmo : Nat) (fs : List String) (tempDir : String)
    (hav : qemu_is_available env = true) (hc : env.createOk = true)
    (hw : env.writeIoOk = true) (hm : mbr.length = 512) (ht : 0 < tmo)
    (hr : env.runOutcome = RunOutcome.timedOut) :
    (test_mbr_in_qemu env mbr variant tmo fs tempDir).1 =
      (true, "QEMU test completed (timeout after " ++ toString tmo ++
        "s") := by
  have h2 := hav
  simp only [qemu_is_available, Bool.and_eq_true] at h2
  unfold test_mbr_in_qemu withTempDir create_disk_image write_mbr_to_image
  simp [hav, h2.1, h2.2, hc, hw, hm, hr, ht]

/-- Witness for C6 with a concrete environment and a 512-byte image. -/
theorem timeout_expiry_is_success_witness :
    (test_mbr_in_qemu
        ⟨true, "qemu-system-i386", true, true, "", [], true,
          RunOutcome.timedOut⟩
        (List.replicate 512 0) "memz" 30 [] "/tmp/t").1 =
      (true, "QEMU test completed (timeout after 30s") :=
  timeout_expiry_is_success
    ⟨true, "qemu-system-i386", true, true, "", [], true,
      RunOutcome.timedOut⟩
    (List.replicate 512 0) "memz" 30 [] "/tmp/t"
    (by decide) (by decide) (by decide) (by decide) (by decide) (by decide)

/-- C4: once the harness's temporary directory has been created (the
tools are available), every exit path of `test_mbr_in_qemu` — create
failure, write failure, launch failure, emulator error, timeout and
normal completion — removes the directory and everything under it. -/
theorem tempdir_removed_on_every_exit (env : QemuEnv) (mbr : List Nat)
    (variant : String) (tmo : Nat) (fs : List String)
    (tempDir p : String) (hav : qemu_is_available env = true)
    (hp : listStarts tempDir.data p.data = true) :
    p ∉ (test_mbr_in_qemu env mbr variant tmo fs tempDir).2 := by
  intro hmem
  unfold test_mbr_in_qemu at hmem
  rw [hav] at hmem
  simp only [Bool.not_true, Bool.false_eq_true, if_false] at hmem
  unfold withTempDir at hmem
  simp only [List.mem_filter] at hmem
  rw [hp] at hmem
  simp at hmem

/-- Witness for C4 at a concrete environment, temp directory and path. -/
theorem tempdir_removed_on_every_exit_witness :
    "/tmp/qemu_x/memz_test.img" ∉
      (test_mbr_in_qemu
          ⟨true, "qemu-system-i386", true, true, "", [], true,
            RunOutcome.completed⟩
          (List.replicate 512 0) "memz" 30 ["/boot"] "/tmp/qemu_x").2 :=
  tempdir_removed_on_every_exit
    ⟨true, "qemu-system-i386", true, true, "", [], true,
      RunOutcome.completed⟩
    (List.replicate 512 0) "memz" 30 ["/boot"] "/tmp/qemu_x"
    "/tmp/qemu_x/memz_test.img" (by decide) (by decide)

/-- C7: the harness's validation of a 512-byte image treats the boot
signature as advisory — present: no warning; zeroed: a warning, but the
emulator test still runs — while any length other than 512 is rejected
before testing. -/
theorem signature_absence_nonfatal (env : QemuEnv) (variant : String)
    (fs : List String) (tempDir : String) (u : List Nat)
    (hu : u.length = 510) :
    (run_variant_test env variant (u ++ [0x55, 0xAA]) fs
        tempDir).sigWarned = false ∧
    (run_variant_test env variant (u ++ [0x55, 0xAA]) fs
        tempDir).sizeRejected = false ∧
    (run_variant_test env variant (u ++ [0x55, 0xAA]) fs
        tempDir).ranQemu = true ∧
    (run_variant_test env variant (u ++ [0, 0]) fs
        tempDir).sigWarned = true ∧
    (run_variant_test env variant (u ++ [0, 0]) fs
        tempDir).sizeRejected = false ∧
    (run_variant_test env variant (u ++ [0, 0]) fs
        tempDir).ranQemu = true ∧
    (∀ m : List Nat, m.length ≠ 512 →
      run_variant_test env variant m fs tempDir =
        ⟨true, false, false, false⟩) := by
  have hlen1 : (u ++ [0x55, 0xAA]).length = 512 := by simp [hu]
  have hlen2 : (u ++ [0, 0]).length = 512 := by simp [hu]
  have hdrop1 : (u ++ [0x55, 0xAA]).drop 510 = [0x55, 0xAA] := by
    rw [← hu]; exact List.drop_left u [0x55, 0xAA]
  have hdrop2 : (u ++ [0, 0]).drop 510 = [0, 0] := by
    rw [← hu]; exact List.drop_left u [0, 0]
  refine ⟨?_, ?_, ?_, ?_, ?_, ?_, fun m hm => ?_⟩
  all_goals first
    | (simp [run_variant_test]
       exact hm)
    | simp [run_variant_test, hlen1, hlen2, hdrop1, hdrop2]

/-- Witness for C7 with a concrete 510-byte body. -/
theorem signature_absence_nonfatal_witness :
    (run_variant_test
        ⟨true, "qemu-system-i386", true, true, "", [], true,
          RunOutcome.completed⟩
        "empty" (List.replicate 510 0 ++ [0x55, 0xAA]) [] "/tmp/t").sigWarned =
      false :=
  (signature_absence_nonfatal
      ⟨true, "qemu-system-i386", true, true, "", [], true,
        RunOutcome.completed⟩
      "empty" [] "/tmp/t" (List.replicate 510 0) (by decide)).1

theorem map_pyLowerChar_eq_yes (l : List Char) :
    l.map pyLowerChar = ['y', 'e', 's'] ↔
      l = ['y','e','s'] ∨ l = ['y','e','S'] ∨ l = ['y','E','s'] ∨
      l = ['y','E','S'] ∨ l = ['Y','e','s'] ∨ l = ['Y','e','S'] ∨
      l = ['Y','E','s'] ∨ l = ['Y','E','S'] := by
  match l with
  | [] => simp
  | [a] => simp
  | [a, b] => simp
  | a :: b :: c :: d :: t => simp
  | [a, b, c] =>
    simp only [List.map_cons, List.map_nil, List.cons.injEq, and_true]
    rw [pyLowerChar_eq_y, pyLowerChar_eq_e, pyLowerChar_eq_s]
    tauto

theorem listStarts_y_lower (l : List Char) :
    listStarts ['y'] (l.map pyLowerChar) = true ↔
      (∃ t, l = 'y' :: t ∨ l = 'Y' :: t) := by
  cases l with
  | nil => simp [listStarts]
  | cons a t =>
    simp only [List.map_cons, listStarts, Bool.and_eq_true, beq_iff_eq]
    constructor
    · rintro ⟨ha, -⟩
      rcases (pyLowerChar_eq_y a).mp ha.symm with rfl | rfl
      · exact ⟨t, Or.inl rfl⟩
      · exact ⟨t, Or.inr rfl⟩
    · rintro ⟨t', h | h⟩ <;> injection h with h1 h2 <;> subst h1 <;>
        exact ⟨by decide, trivial⟩

/-- C2 counterexample: at tier `high` the prompt accepts the phrase with
a trailing space — an input that is not exactly `I UNDERSTAND THE RISKS`
— because the source strips the operator's line before comparing. -/
theorem confirm_exact_equality_counterexample :
    display_safety_warning "high" "/dev/sda"
      "I UNDERSTAND THE RISKS " = true ∧
    "I UNDERSTAND THE RISKS " ≠ ("I UNDERSTAND THE RISKS" : String) := by
  constructor
  · decide
  · decide

/-- C2 (amended): for operator input carrying no surrounding whitespace
(the stripped form the source actually compares), the prompt returns true
iff: at tier `high` the input is exactly `I UNDERSTAND THE RISKS`; at
tier `medium` the input case-insensitively equals `yes`; at tier `low`
the input starts with `y` or `Y`.  Any other such input — including the
empty input — yields false, for every target. -/
theorem confirm_tier_characterization (target input : String)
    (h : pyStrip input = input) :
    (display_safety_warning "high" target input = true ↔
      input = "I UNDERSTAND THE RISKS") ∧
    (display_safety_warning "medium" target input = true ↔
      input ∈ (["yes", "yeS", "yEs", "yES",
                "Yes", "YeS", "YEs", "YES"] : List String)) ∧
    (display_safety_warning "low" target input = true ↔
      (∃ t, input.data = 'y' :: t ∨ input.data = 'Y' :: t)) := by
  obtain ⟨l⟩ := input
  have hinj : ∀ (a b : List Char), ((⟨a⟩ : String) = ⟨b⟩) ↔ a = b :=
    fun a b => ⟨fun hh => congrArg String.data hh, fun hh => by rw [hh]⟩
  refine ⟨?_, ?_, ?_⟩
  · rw [show display_safety_warning "high" target ⟨l⟩ =
        (pyStrip ⟨l⟩ == ("I UNDERSTAND THE RISKS" : String)) from rfl, h,
      beq_iff_eq]
  · rw [show display_safety_warning "medium" target ⟨l⟩ =
        (pyLower (pyStrip ⟨l⟩) == ("yes" : String)) from rfl, h,
      beq_iff_eq]
    rw [show pyLower ⟨l⟩ = ⟨l.map pyLowerChar⟩ from rfl]
    simp only [List.mem_cons, List.not_mem_nil, or_false]
    rw [show ("yes" : String) = ⟨['y', 'e', 's']⟩ from rfl,
        show ("yeS" : String) = ⟨['y', 'e', 'S']⟩ from rfl,
        show ("yEs" : String) = ⟨['y', 'E', 's']⟩ from rfl,
        show ("yES" : String) = ⟨['y', 'E', 'S']⟩ from rfl,
        show ("Yes" : String) = ⟨['Y', 'e', 's']⟩ from rfl,
        show ("YeS" : String) = ⟨['Y', 'e', 'S']⟩ from rfl,
        show ("YEs" : String) = ⟨['Y', 'E', 's']⟩ from rfl,
        show ("YES" : String) = ⟨['Y', 'E', 'S']⟩ from rfl]
    simp only [hinj]
    exact map_pyLowerChar_eq_yes l
  · rw [show display_safety_warning "low" target ⟨l⟩ =
        listStarts "y".data (pyLower (pyStrip ⟨l⟩)).data from rfl, h]
    rw [show (pyLower ⟨l⟩).data = l.map pyLowerChar from rfl,
        show ("y" : String).data = ['y'] from rfl]
    exact listStarts_y_lower l

/-- Witness for C2 (amended) at the stripped input `YES`. -/
theorem confirm_tier_characterization_witness :
    pyStrip "YES" = "YES" ∧
    display_safety_warning "medium" "./out/test.img" "YES" = true :=
  ⟨by decide,
    (confirm_tier_characterization "./out/test.img" "YES"
        (by decide)).2.1.mpr (by decide)⟩

/-- C1 counterexample: the installer emitted by `create_cpp_executable`
does not write when the operator enters the high-tier phrase (it cancels
with exit code 0), and it does write on the input `YES`, which is not the
high-tier phrase. -/
theorem installer_high_tier_counterexample :
    installerMain 2 "I UNDERSTAND THE RISKS" ⟨true, 512⟩ =
      ⟨0, false, true, true⟩ ∧
    (installerMain 2 "YES" ⟨true, 512⟩).wrote = true := by
  constructor
  · decide
  · decide

/-- C1 (amended): the emitted installer prints the variant name and
target, then gates its write behind the exact confirmation `YES` (not the
high-tier phrase): wrong argument count exits 1 without writing; any
input other than `YES` exits 0 with a cancellation message and no write;
on `YES` it writes the 512 embedded bytes, exiting 0 when the verified
count is 512 and 1 when the write fails; a verified write happens exactly
when the argument count is right, the input is `YES`, and the raw write
reports 512 bytes. -/
theorem installer_gates_on_yes (argc : Nat) (input : String)
    (env : InstallEnv) :
    (argc ≠ 2 → installerMain argc input env = ⟨1, false, false, false⟩) ∧
    (argc = 2 → input ≠ "YES" →
      installerMain argc input env = ⟨0, false, true, true⟩) ∧
    (argc = 2 → input = "YES" → cppWriteMBR env = true →
      installerMain argc input env = ⟨0, true, false, true⟩) ∧
    (argc = 2 → input = "YES" → cppWriteMBR env = false →
      installerMain argc input env = ⟨1, false, false, true⟩) ∧
    ((installerMain argc input env).wrote = true ↔
      argc = 2 ∧ input = "YES" ∧ cppWriteMBR env = true) := by
  unfold installerMain
  split_ifs with h1 h2 h3 <;> simp_all

/-- Witness for C1 (amended): a concrete verified 512-byte write. -/
theorem installer_gates_on_yes_witness :
    installerMain 2 "YES" ⟨true, 512⟩ = ⟨0, true, false, true⟩ :=
  (installer_gates_on_yes 2 "YES" ⟨true, 512⟩).2.2.1 rfl rfl (by decide)

end BootSector
